import Mathlib

/-!
Verification development for the m8flow multi-tenant isolation layer and
related extension code.

Claims C1-C8 concern the tenant-context propagation and isolation-enforcement
subsystem (TenantContext, EnforcementPolicy, SessionBinder, VerificationHarness).
The implementation of that subsystem is not part of this source tree: only its
operational documentation survives, in the RLS notes kept next to the Alembic
migration template (`extensions/m8flow-backend/db/alembic/script.py.mako`).
Those components are therefore modelled from the specification, with the RLS
notes used as corroborating documentation; each such definition carries a
`Modelled from the spec:` doc comment.

Claims C9 and C10 concern code that is present in the tree: the
tenant-verifying `TenantSelectPage` (React) and the Keycloak
`RealmInfoMapper` (Java); their Lean definitions are direct translations of
that source.
-/

namespace M8flow

/-- Modelled from the spec: §3 DatabaseRole — the missing RoleClassifier
outcome. One of `runtime` (no bypass capability, ever), `migration` (bypass
capability), `admin` (unrestricted bypass). A property of the credential,
fixed at configuration time. -/
inductive DatabaseRole where
  | runtime
  | migration
  | admin
deriving DecidableEq, Repr

/-- Modelled from the spec: §3 EnforcementDecision reason enum. -/
inductive DecisionReason where
  | context_present
  | bypass_role
  | explicit_override_allowed
  | denied_missing_context
deriving DecidableEq, Repr

/-- Modelled from the spec: §3 EnforcementDecision
`{ allow : bool, reason : enum }`. -/
structure EnforcementDecision where
  allow : Bool
  reason : DecisionReason
deriving DecidableEq, Repr

/-- Modelled from the spec: §3 TenantContext is `{ tenant_id : string | absent }`;
`none` is the first-class `absent` state. A context counts as present for
EnforcementPolicy rule 3 only when it is a non-empty string. -/
def contextPresent : Option String → Bool
  | none => false
  | some t => if t = "" then false else true

namespace EnforcementPolicy

/-- Modelled from the spec: §4.3 `decide(context, role) -> EnforcementDecision`,
the missing EnforcementPolicy of the backend tenancy module. The decision
table is evaluated in order, first match wins:
1. admin → allow, `bypass_role`;
2. migration with absent context and the configured
   allow-missing-context-for-migration flag → allow, `explicit_override_allowed`;
3. present (non-empty) context → allow, `context_present`;
4. otherwise → deny, `denied_missing_context`. -/
def decide (ctx : Option String) (role : DatabaseRole)
    (allowMissingContextForMigration : Bool) : EnforcementDecision :=
  if role = DatabaseRole.admin then
    { allow := true, reason := DecisionReason.bypass_role }
  else if role = DatabaseRole.migration ∧ ctx = none ∧
      allowMissingContextForMigration = true then
    { allow := true, reason := DecisionReason.explicit_override_allowed }
  else if contextPresent ctx then
    { allow := true, reason := DecisionReason.context_present }
  else
    { allow := false, reason := DecisionReason.denied_missing_context }

end EnforcementPolicy

/-- A row of the tenant-scoped `process_instance` table, with the columns used
by the RLS verification setup in the Alembic template notes. -/
structure ProcessInstanceRow where
  id : Nat
  process_model_identifier : String
  process_model_display_name : String
  process_initiator_id : Nat
  status : String
  updated_at_in_seconds : Nat
  created_at_in_seconds : Nat
  m8f_tenant_id : String
deriving DecidableEq, Repr

/-- A tenant-scoped table is a list of rows. -/
abbrev Table := List ProcessInstanceRow

/-- Modelled from the spec: whether a database role carries RLS bypass. Per
the RLS notes' role hardening, the admin role has BYPASSRLS, the migration
role is a member of the admin role or granted BYPASSRLS, and the runtime role
has no SUPERUSER and no BYPASSRLS. -/
def bypassRLS : DatabaseRole → Bool
  | DatabaseRole.runtime => false
  | DatabaseRole.migration => true
  | DatabaseRole.admin => true

/-- Modelled from the spec: the RLS policy predicate. Per the RLS notes, the
policies compare `m8f_tenant_id` to `current_setting(app.current_tenant, true)`;
if the setting is unset or empty, no row matches. -/
def settingMatches : Option String → String → Bool
  | none, _ => false
  | some s, t => if s = "" then false else if t = s then true else false

/-- Modelled from the spec: the rows a `SELECT` on a tenant-scoped table
returns under row-level security. A BYPASSRLS role sees every row; any other
role sees exactly the rows whose `m8f_tenant_id` matches the current tenant
setting. -/
def rlsRead (role : DatabaseRole) (setting : Option String) (db : Table) :
    Table :=
  if bypassRLS role then db
  else db.filter (fun r => settingMatches setting r.m8f_tenant_id)

/-- Modelled from the spec: an `INSERT` into a tenant-scoped table under
row-level security. A BYPASSRLS role may insert anything; any other role may
insert only a row whose `m8f_tenant_id` matches the current tenant setting
(the policy's WITH CHECK side); otherwise the write is rejected before it
reaches storage (`none`). -/
def rlsWrite (role : DatabaseRole) (setting : Option String) (db : Table)
    (row : ProcessInstanceRow) : Option Table :=
  if bypassRLS role then some (db ++ [row])
  else if settingMatches setting row.m8f_tenant_id then some (db ++ [row])
  else none

/-- Modelled from the spec: the statements the native-strategy SessionBinder
may issue before any domain statement: `SET LOCAL app.current_tenant = t`
or `RESET app.current_tenant`. -/
inductive BindStmt where
  | setLocalTenant (t : String)
  | resetTenant
deriving DecidableEq, Repr

/-- Modelled from the spec: the tenant-setting state of one pooled PostgreSQL
connection. `sessionTenant` is the session-level value of
`app.current_tenant` (survives transactions); `txnTenant` is a
transaction-local override installed by `SET LOCAL`, discarded when the
transaction ends. -/
structure ConnState where
  sessionTenant : Option String
  txnTenant : Option String
deriving DecidableEq, Repr

/-- Modelled from the spec: effect of one binder statement on the connection.
`SET LOCAL` touches only the transaction-local slot; `RESET` clears the
setting outright (this is the defence against pool reuse carrying a previous
tenant's setting into a new logical session). -/
def applyBindStmt (c : ConnState) : BindStmt → ConnState
  | BindStmt.setLocalTenant t => { c with txnTenant := some t }
  | BindStmt.resetTenant => { sessionTenant := none, txnTenant := none }

/-- The value `current_setting(app.current_tenant, true)` reports on this
connection: the transaction-local override when present, else the
session-level value. -/
def effectiveTenant (c : ConnState) : Option String :=
  match c.txnTenant with
  | some t => some t
  | none => c.sessionTenant

/-- Transaction end (commit or rollback): every `SET LOCAL` override is
discarded; session-level state is untouched. -/
def endTxn (c : ConnState) : ConnState := { c with txnTenant := none }

/-- Modelled from the spec: the statements the native-strategy binder issues
at transaction open. With a present context it issues the transaction-scoped
`SET LOCAL`; with an absent context it must still issue a statement that
resets/clears any inherited setting. -/
def nativeBindStmts : Option String → List BindStmt
  | some t => [BindStmt.setLocalTenant t]
  | none => [BindStmt.resetTenant]

/-- Error taxonomy of the layer (the fragment the claims need).
`MissingContextError` is raised when a runtime-role transaction attempts to
open with absent context; `WriteRejected` models an RLS WITH CHECK failure
aborting the transaction. -/
inductive TenancyError where
  | MissingContextError
  | WriteRejected
deriving DecidableEq, Repr

/-- Run a sequence of domain `INSERT`s under RLS; any rejected write aborts
(`none`). -/
def execInserts (role : DatabaseRole) (setting : Option String) :
    List ProcessInstanceRow → Table → Option Table
  | [], db => some db
  | r :: rs, db =>
    match rlsWrite role setting db r with
    | some db2 => execInserts role setting rs db2
    | none => none

/-- Observable outcome of one native-strategy transaction: the connection
state handed back to the pool, the table contents, the binder statements that
were issued, the domain statements that were allowed to execute, and the
error (if any) the transaction ended with. -/
structure TxnResult where
  conn : ConnState
  db : Table
  issuedBindStmts : List BindStmt
  executedDomain : List ProcessInstanceRow
  outcome : Option TenancyError
deriving DecidableEq, Repr

/-- Modelled from the spec: one transaction under the native strategy.
The binder statements are issued first; the EnforcementPolicy decision is
evaluated next; only if it allows do the domain statements run (under the
connection's effective tenant setting); a denial ends the transaction with
`MissingContextError`, no domain statement, and no change to the table.
In every case the transaction ends (commit or rollback), discarding the
`SET LOCAL` binding before the connection returns to the pool. -/
def runNativeTxn (flag : Bool) (role : DatabaseRole) (ctx : Option String)
    (inserts : List ProcessInstanceRow) (conn : ConnState) (db : Table) :
    TxnResult :=
  let issued := nativeBindStmts ctx
  let connBound := issued.foldl applyBindStmt conn
  let d := EnforcementPolicy.decide ctx role flag
  if d.allow then
    match execInserts role (effectiveTenant connBound) inserts db with
    | some db2 =>
      { conn := endTxn connBound, db := db2, issuedBindStmts := issued,
        executedDomain := inserts, outcome := none }
    | none =>
      { conn := endTxn connBound, db := db, issuedBindStmts := issued,
        executedDomain := inserts,
        outcome := some TenancyError.WriteRejected }
  else
    { conn := endTxn connBound, db := db, issuedBindStmts := issued,
      executedDomain := [],
      outcome := some TenancyError.MissingContextError }

/-- Modelled from the spec: the two SessionBinder strategies behind one
interface. -/
inductive Strategy where
  | native
  | fallback
deriving DecidableEq, Repr

/-- Modelled from the spec: the rows a read returns under a given strategy.
`viaAccessor` records whether the query goes through the shared query-layer
accessor. The native strategy filters server-side regardless of the access
path; the fallback strategy applies the implicit predicate
`tenant_id = current_context` only inside the accessor (bypass roles skip
it), so a query that bypasses the accessor bypasses isolation too. -/
def readRows (s : Strategy) (viaAccessor : Bool) (role : DatabaseRole)
    (ctx : Option String) (db : Table) : Table :=
  match s with
  | Strategy.native => rlsRead role ctx db
  | Strategy.fallback =>
    if viaAccessor then
      if bypassRLS role then db
      else db.filter (fun r => settingMatches ctx r.m8f_tenant_id)
    else db

/-- Modelled from the spec: whether a write is accepted under a given
strategy. Under native, RLS WITH CHECK decides. Under fallback, the accessor
stamps the row's tenant column from the context, so through the accessor a
non-bypass write is accepted exactly when a context is present; outside the
accessor nothing stops the write. -/
def writeAccepted (s : Strategy) (viaAccessor : Bool) (role : DatabaseRole)
    (ctx : Option String) (row : ProcessInstanceRow) : Bool :=
  match s with
  | Strategy.native =>
    if bypassRLS role then true
    else settingMatches ctx row.m8f_tenant_id
  | Strategy.fallback =>
    if viaAccessor then
      if bypassRLS role then true else contextPresent ctx
    else true

/-- Modelled from the spec: VerificationHarness
`assert_no_context_read_returns_empty(table)` — a read with absent context
under the runtime role returns zero rows. -/
def assert_no_context_read_returns_empty (s : Strategy) (viaAccessor : Bool)
    (db : Table) : Bool :=
  readRows s viaAccessor DatabaseRole.runtime none db = ([] : Table)

/-- Modelled from the spec: VerificationHarness
`assert_no_context_write_rejected(table, row)` — a write with absent context
under the runtime role is rejected. -/
def assert_no_context_write_rejected (s : Strategy) (viaAccessor : Bool)
    (row : ProcessInstanceRow) : Bool :=
  !(writeAccepted s viaAccessor DatabaseRole.runtime none row)

/-- Modelled from the spec: VerificationHarness
`assert_tenant_sees_only_own_rows(tenant_a, tenant_b, table)` — each tenant's
read returns only rows stamped with that tenant. -/
def assert_tenant_sees_only_own_rows (s : Strategy) (viaAccessor : Bool)
    (tenant_a tenant_b : String) (db : Table) : Bool :=
  (readRows s viaAccessor DatabaseRole.runtime (some tenant_a) db).all
      (fun r => r.m8f_tenant_id = tenant_a) &&
    (readRows s viaAccessor DatabaseRole.runtime (some tenant_b) db).all
      (fun r => r.m8f_tenant_id = tenant_b)

/-- Modelled from the spec: VerificationHarness
`assert_bypass_role_sees_all(table)` — a bypass-role read with absent context
sees the union of all tenants' rows. -/
def assert_bypass_role_sees_all (s : Strategy) (viaAccessor : Bool)
    (db : Table) : Bool :=
  readRows s viaAccessor DatabaseRole.admin none db = db

/-! Tenant-verifying `TenantSelectPage` (src: `TenantSelectPage` variant with
the unauthenticated `GET /tenants/check` validation), translated from the
React source. -/

/-- The localStorage key under which the tenant id is stored
(`M8FLOW_TENANT_STORAGE_KEY` in the source). -/
def M8FLOW_TENANT_STORAGE_KEY : String := "m8flow_tenant"

/-- Response shape of `GET /tenants/check`
(`type TenantCheckResponse = { exists: boolean; tenant_id?: string }`). -/
structure TenantCheckResponse where
  «exists» : Bool
  tenant_id : Option String
deriving DecidableEq, Repr

/-- The outcome of the backend call made by `handleSubmit`: either the
success callback runs with the parsed response, or the failure callback runs
with an error whose `message` field may be absent. -/
inductive BackendCallResult where
  | success (data : TenantCheckResponse)
  | failure (message : Option String)
deriving DecidableEq, Repr

/-- JavaScript `String.prototype.trim`, modelled structurally over the
character list (drop leading and trailing whitespace). -/
def jsTrim (s : String) : String :=
  String.mk
    (((s.data.dropWhile Char.isWhitespace).reverse.dropWhile
        Char.isWhitespace).reverse)

/-- The externally observable effects of one `handleSubmit` run: the error
message left in the `error` state (if any), the localStorage write performed
(key-value pair, if any), and the navigation target (if any). -/
structure SubmitOutcome where
  errorMsg : Option String
  stored : Option (String × String)
  navigatedTo : Option String
deriving DecidableEq, Repr

/-- `TenantSelectPage.handleSubmit`, translated from the source: trim the
entered tenant name; if empty, set the error and stop; otherwise call
`GET /tenants/check?identifier=...`. On success with `exists` true, store
`data.tenant_id ?? trimmed` in localStorage under `m8flow_tenant` and
navigate to `/login`; with `exists` false, set the error `Tenant not found`;
on failure, set the error `err?.message ?? 'Unable to verify tenant'`. -/
def handleSubmit (tenantName : String) (backend : BackendCallResult) :
    SubmitOutcome :=
  let trimmed := jsTrim tenantName
  if trimmed = "" then
    { errorMsg := some "Tenant name is required", stored := none,
      navigatedTo := none }
  else
    match backend with
    | BackendCallResult.success data =>
      if data.«exists» then
        let tenantId := data.tenant_id.getD trimmed
        { errorMsg := none,
          stored := some (M8FLOW_TENANT_STORAGE_KEY, tenantId),
          navigatedTo := some "/login" }
      else
        { errorMsg := some "Tenant not found", stored := none,
          navigatedTo := none }
    | BackendCallResult.failure msg =>
      { errorMsg := some (msg.getD "Unable to verify tenant"), stored := none,
        navigatedTo := none }

/-! Keycloak `RealmInfoMapper` (src: `com.m8flow.keycloak.mapper`),
translated from the Java source. -/

/-- A Keycloak realm, as read through `RealmModel.getId`/`getName`. -/
structure RealmModel where
  id : String
  name : String
deriving DecidableEq, Repr

/-- The Keycloak session context; `getRealm` returns the realm the request is
issued against (the realm issuing the token). -/
structure KeycloakContext where
  realm : RealmModel
deriving DecidableEq, Repr

/-- A Keycloak session, as read through `getContext`. -/
structure KeycloakSession where
  context : KeycloakContext
deriving DecidableEq, Repr

/-- The protocol-mapper configuration model (its contents are irrelevant to
`setClaim`, which never reads it). -/
structure ProtocolMapperModel where
  config : List (String × String)
deriving DecidableEq, Repr

/-- The user session (its contents are irrelevant to `setClaim`, which never
reads it). -/
structure UserSessionModel where
  userId : String
deriving DecidableEq, Repr

/-- The client session context (its contents are irrelevant to `setClaim`,
which never reads it). -/
structure ClientSessionContext where
  clientId : String
deriving DecidableEq, Repr

/-- A token with its `otherClaims` map, modelled as an association list where
`put` prepends and lookup takes the first (newest) binding for a key. -/
structure IDToken where
  otherClaims : List (String × String)
deriving DecidableEq, Repr

/-- `Map.put` on `otherClaims`: later puts shadow earlier bindings of the
same key under first-match lookup. -/
def putClaim (m : List (String × String)) (k v : String) :
    List (String × String) :=
  (k, v) :: m

/-- Lookup of a claim in `otherClaims` (first binding wins, matching
`Map.put` overwrite semantics). -/
def lookupClaim (token : IDToken) (k : String) : Option String :=
  token.otherClaims.lookup k

/-- `RealmInfoMapper.setClaim`, translated from the Java source: fetch the
current realm from the Keycloak session context and put
`m8flow_tenant_name := realm.getName()` and
`m8flow_tenant_id := realm.getId()` into the token's other claims. The
`mappingModel`, `userSession`, and `clientSessionCtx` arguments are never
read. -/
def setClaim (token : IDToken) (mappingModel : ProtocolMapperModel)
    (userSession : UserSessionModel) (keycloakSession : KeycloakSession)
    (clientSessionCtx : ClientSessionContext) : IDToken :=
  let realm := keycloakSession.context.realm
  let c1 := putClaim token.otherClaims "m8flow_tenant_name" realm.name
  { otherClaims := putClaim c1 "m8flow_tenant_id" realm.id }

/-- The `rls_test_a` row (id 100001, tenant-a) from the RLS test setup in the
migration template's notes. -/
def rowTestA : ProcessInstanceRow :=
  { id := 100001, process_model_identifier := "rls_test_a",
    process_model_display_name := "rls_test_a", process_initiator_id := 1,
    status := "running", updated_at_in_seconds := 0,
    created_at_in_seconds := 0, m8f_tenant_id := "tenant-a" }

/-- The `rls_test_b` row (id 100002, tenant-b) from the RLS test setup in the
migration template's notes. -/
def rowTestB : ProcessInstanceRow :=
  { id := 100002, process_model_identifier := "rls_test_b",
    process_model_display_name := "rls_test_b", process_initiator_id := 1,
    status := "running", updated_at_in_seconds := 0,
    created_at_in_seconds := 0, m8f_tenant_id := "tenant-b" }

/-- The `rls_test_none` row (id 100003) whose no-context insert the
operational verification expects to fail. -/
def rowTestNone : ProcessInstanceRow :=
  { id := 100003, process_model_identifier := "rls_test_none",
    process_model_display_name := "rls_test_none", process_initiator_id := 1,
    status := "running", updated_at_in_seconds := 0,
    created_at_in_seconds := 0, m8f_tenant_id := "tenant-a" }

/-! Helper lemmas shared by the claim theorems. -/

theorem settingMatches_some_iff (s t : String) :
    settingMatches (some s) t = true ↔ s ≠ "" ∧ t = s := by
  simp only [settingMatches]
  split_ifs with h1 h2
  · simp [h1]
  · simp [h1, h2]
  · simp [h1, h2]

theorem rlsRead_runtime_eq (setting : Option String) (db : Table) :
    rlsRead DatabaseRole.runtime setting db =
      db.filter (fun r => settingMatches setting r.m8f_tenant_id) := rfl

theorem mem_rlsRead_runtime {setting : Option String} {db : Table}
    {r : ProcessInstanceRow} (h : r ∈ rlsRead DatabaseRole.runtime setting db) :
    r ∈ db ∧ settingMatches setting r.m8f_tenant_id = true := by
  rw [rlsRead_runtime_eq] at h
  exact List.mem_filter.mp h

theorem rlsWrite_runtime_some {setting : Option String} {db db2 : Table}
    {row : ProcessInstanceRow}
    (h : rlsWrite DatabaseRole.runtime setting db row = some db2) :
    settingMatches setting row.m8f_tenant_id = true ∧ db2 = db ++ [row] := by
  by_cases hm : settingMatches setting row.m8f_tenant_id = true
  · refine ⟨hm, ?_⟩
    simp [rlsWrite, bypassRLS, hm] at h
    exact h.symm
  · exfalso
    simp [rlsWrite, bypassRLS, hm] at h

theorem rlsRead_runtime_unset (db : Table) :
    rlsRead DatabaseRole.runtime none db = [] := by
  rw [rlsRead_runtime_eq]
  induction db with
  | nil => rfl
  | cons r rs ih => simp [List.filter, settingMatches, ih]

theorem rlsRead_runtime_empty (db : Table) :
    rlsRead DatabaseRole.runtime (some "") db = [] := by
  rw [rlsRead_runtime_eq]
  induction db with
  | nil => rfl
  | cons r rs ih => simp [List.filter, settingMatches, ih]

/-! The claims. -/

/-- C1. Isolation: for distinct tenants `a ≠ b`, a row accepted by a write
executed under tenant context `a` (runtime role, RLS enforced) is never
returned by a read executed under tenant context `b`; more generally, every
row a read under `b`'s context returns carries `b`'s tenant id. -/
theorem C1_tenant_isolation (a b : String) (row : ProcessInstanceRow)
    (db db2 : Table) (hab : a ≠ b)
    (hw : rlsWrite DatabaseRole.runtime (some a) db row = some db2) :
    row ∉ rlsRead DatabaseRole.runtime (some b) db2 ∧
      ∀ r ∈ rlsRead DatabaseRole.runtime (some b) db2, r.m8f_tenant_id = b := by
  obtain ⟨hm, -⟩ := rlsWrite_runtime_some hw
  obtain ⟨-, hta⟩ := (settingMatches_some_iff a row.m8f_tenant_id).mp hm
  constructor
  · intro hmem
    obtain ⟨-, hmb⟩ := mem_rlsRead_runtime hmem
    obtain ⟨-, htb⟩ := (settingMatches_some_iff b row.m8f_tenant_id).mp hmb
    exact hab (hta ▸ htb ▸ rfl)
  · intro r hr
    obtain ⟨-, hmb⟩ := mem_rlsRead_runtime hr
    exact ((settingMatches_some_iff b r.m8f_tenant_id).mp hmb).2

/-- Witness for C1: the RLS verification scenario from the migration
template's notes. With row `100002` already present for `tenant-b`,
`tenant-a` writes the row with id `100001`; the read under `tenant-b` context
does not return it. -/
theorem C1_witness :
    rowTestA ∉ rlsRead DatabaseRole.runtime (some "tenant-b")
      [rowTestB, rowTestA] :=
  (C1_tenant_isolation "tenant-a" "tenant-b" rowTestA [rowTestB]
    [rowTestB, rowTestA] (by decide) (by decide)).1

/-- C2. Default-deny: with the tenant setting unset (or set to the empty
string) and the runtime (no-BYPASSRLS) role, every read on a tenant-scoped
table returns zero rows and every write is rejected before it reaches
storage. -/
theorem C2_default_deny (ctx : Option String) (db : Table)
    (row : ProcessInstanceRow) (h : ctx = none ∨ ctx = some "") :
    rlsRead DatabaseRole.runtime ctx db = [] ∧
      rlsWrite DatabaseRole.runtime ctx db row = none := by
  rcases h with h | h <;> subst h
  · refine ⟨rlsRead_runtime_unset db, ?_⟩
    simp [rlsWrite, bypassRLS, settingMatches]
  · refine ⟨rlsRead_runtime_empty db, ?_⟩
    simp [rlsWrite, bypassRLS, settingMatches]

/-- Witness for C2: the operational-verification example — with no tenant
set, the `process_instance` read returns zero rows and the insert of the
`rls_test_none` row fails. -/
theorem C2_witness :
    rlsRead DatabaseRole.runtime none [rowTestA] = [] ∧
      rlsWrite DatabaseRole.runtime none [rowTestA] rowTestNone = none :=
  C2_default_deny none [rowTestA] rowTestNone (Or.inl rfl)

/-- C3. The runtime role never bypasses tenant scoping: a runtime-role read
only ever returns rows of the bound tenant (so with absent or empty context
it returns nothing), a runtime-role write is only accepted for the bound
tenant, no value of the allow-missing-context flag or of the context makes
the EnforcementPolicy allow a runtime transaction without a present context,
and the decision for the runtime role never carries a bypass reason. -/
theorem C3_runtime_never_bypasses :
    (∀ (ctx : Option String) (db : Table) (r : ProcessInstanceRow),
        r ∈ rlsRead DatabaseRole.runtime ctx db →
          ∃ t, ctx = some t ∧ t ≠ "" ∧ r.m8f_tenant_id = t) ∧
      (∀ (ctx : Option String) (db db2 : Table) (row : ProcessInstanceRow),
        rlsWrite DatabaseRole.runtime ctx db row = some db2 →
          ∃ t, ctx = some t ∧ t ≠ "" ∧ row.m8f_tenant_id = t) ∧
      (∀ (ctx : Option String) (flag : Bool),
        (EnforcementPolicy.decide ctx DatabaseRole.runtime flag).allow = true →
          contextPresent ctx = true) ∧
      (∀ (ctx : Option String) (flag : Bool),
        (EnforcementPolicy.decide ctx DatabaseRole.runtime flag).reason ≠
            DecisionReason.bypass_role ∧
          (EnforcementPolicy.decide ctx DatabaseRole.runtime flag).reason ≠
            DecisionReason.explicit_override_allowed) := by
  refine ⟨?_, ?_, ?_, ?_⟩
  · intro ctx db r h
    obtain ⟨-, hm⟩ := mem_rlsRead_runtime h
    match ctx with
    | none => cases hm
    | some t =>
      obtain ⟨ht, hr⟩ := (settingMatches_some_iff t r.m8f_tenant_id).mp hm
      exact ⟨t, rfl, ht, hr⟩
  · intro ctx db db2 row h
    obtain ⟨hm, -⟩ := rlsWrite_runtime_some h
    match ctx with
    | none => cases hm
    | some t =>
      obtain ⟨ht, hr⟩ := (settingMatches_some_iff t row.m8f_tenant_id).mp hm
      exact ⟨t, rfl, ht, hr⟩
  · intro ctx flag h
    by_cases hc : contextPresent ctx = true
    · exact hc
    · exfalso
      simp [EnforcementPolicy.decide, hc] at h
  · intro ctx flag
    constructor <;>
      · simp only [EnforcementPolicy.decide]
        split_ifs <;> simp_all

/-- Witness for C3: the row returned by a runtime read under `tenant-a`
context is stamped with the bound tenant. -/
theorem C3_witness :
    ∃ t, (some "tenant-a" : Option String) = some t ∧ t ≠ "" ∧
      rowTestA.m8f_tenant_id = t :=
  C3_runtime_never_bypasses.1 (some "tenant-a") [rowTestA] rowTestA (by decide)

/-- C4. The EnforcementPolicy decision table, first match wins: admin always
allows with `bypass_role`; migration with absent context allows with
`explicit_override_allowed` exactly when the flag is set, and this is the
only non-admin path that allows absent context; a present non-empty context
allows with `context_present`; every other input denies with
`denied_missing_context`. -/
theorem C4_decision_table :
    (∀ (ctx : Option String) (flag : Bool),
        EnforcementPolicy.decide ctx DatabaseRole.admin flag =
          { allow := true, reason := DecisionReason.bypass_role }) ∧
      (∀ flag : Bool,
        EnforcementPolicy.decide none DatabaseRole.migration flag =
          if flag then
            { allow := true,
              reason := DecisionReason.explicit_override_allowed }
          else
            { allow := false,
              reason := DecisionReason.denied_missing_context }) ∧
      (∀ (role : DatabaseRole) (flag : Bool), role ≠ DatabaseRole.admin →
        (EnforcementPolicy.decide none role flag).allow = true →
          role = DatabaseRole.migration ∧ flag = true) ∧
      (∀ (t : String) (role : DatabaseRole) (flag : Bool),
        role ≠ DatabaseRole.admin → t ≠ "" →
          EnforcementPolicy.decide (some t) role flag =
            { allow := true, reason := DecisionReason.context_present }) ∧
      (∀ (ctx : Option String) (role : DatabaseRole) (flag : Bool),
        role ≠ DatabaseRole.admin → contextPresent ctx = false →
          ¬(role = DatabaseRole.migration ∧ ctx = none ∧ flag = true) →
          EnforcementPolicy.decide ctx role flag =
            { allow := false,
              reason := DecisionReason.denied_missing_context }) := by
  refine ⟨?_, ?_, ?_, ?_, ?_⟩
  · intro ctx flag
    simp [EnforcementPolicy.decide]
  · intro flag
    cases flag <;> simp [EnforcementPolicy.decide, contextPresent]
  · intro role flag hadm h
    cases role <;> cases flag <;>
      simp_all [EnforcementPolicy.decide, contextPresent]
  · intro t role flag hadm ht
    cases role <;> simp_all [EnforcementPolicy.decide, contextPresent, ht]
  · intro ctx role flag hadm hc hnm
    cases role <;> simp_all [EnforcementPolicy.decide]

/-- Witness for C4: the runtime role with a present context is allowed with
`context_present`; the runtime role with absent context is denied with
`denied_missing_context` even with the migration override flag set. -/
theorem C4_witness :
    EnforcementPolicy.decide (some "tenant-a") DatabaseRole.runtime false =
        { allow := true, reason := DecisionReason.context_present } ∧
      EnforcementPolicy.decide none DatabaseRole.runtime true =
        { allow := false, reason := DecisionReason.denied_missing_context } :=
  ⟨C4_decision_table.2.2.2.1 "tenant-a" DatabaseRole.runtime false
      (by decide) (by decide),
    C4_decision_table.2.2.2.2 none DatabaseRole.runtime true
      (by decide) (by decide) (by decide)⟩

theorem decide_none_runtime (flag : Bool) :
    EnforcementPolicy.decide none DatabaseRole.runtime flag =
      { allow := false, reason := DecisionReason.denied_missing_context } := by
  simp [EnforcementPolicy.decide, contextPresent]

theorem runNativeTxn_conn (flag : Bool) (role : DatabaseRole)
    (ctx : Option String) (inserts : List ProcessInstanceRow)
    (conn : ConnState) (db : Table) :
    (runNativeTxn flag role ctx inserts conn db).conn =
      endTxn ((nativeBindStmts ctx).foldl applyBindStmt conn) := by
  simp only [runNativeTxn]
  split
  · split <;> rfl
  · rfl

theorem runNativeTxn_issued (flag : Bool) (role : DatabaseRole)
    (ctx : Option String) (inserts : List ProcessInstanceRow)
    (conn : ConnState) (db : Table) :
    (runNativeTxn flag role ctx inserts conn db).issuedBindStmts =
      nativeBindStmts ctx := by
  simp only [runNativeTxn]
  split
  · split <;> rfl
  · rfl

/-- C5. Native strategy with absent context under the runtime role: the
binder still issues the statement that clears any tenant setting inherited
from connection-pool reuse (`RESET app.current_tenant`, the only bind
statement, issued before the policy check), that statement does clear the
inherited setting, and only afterwards is the transaction denied by the
enforcement check — before any domain statement executes. -/
theorem C5_reset_then_deny :
    ∀ (flag : Bool) (inserts : List ProcessInstanceRow) (conn : ConnState)
      (db : Table),
      (runNativeTxn flag DatabaseRole.runtime none inserts conn
              db).issuedBindStmts =
          [BindStmt.resetTenant] ∧
        effectiveTenant ((nativeBindStmts none).foldl applyBindStmt conn) =
          none ∧
        (EnforcementPolicy.decide none DatabaseRole.runtime flag).allow =
          false ∧
        (runNativeTxn flag DatabaseRole.runtime none inserts conn
              db).executedDomain =
          [] := by
  intro flag inserts conn db
  refine ⟨runNativeTxn_issued .., rfl, ?_, ?_⟩
  · rw [decide_none_runtime]
  · simp [runNativeTxn, decide_none_runtime]

/-- C6. A runtime-role transaction opening with absent context fails with
`MissingContextError`: the error is fatal to that transaction (no domain
statement executes, no row is persisted — the table is unchanged), the run
function returns the error directly (no retry), and the outcome is the error
rather than a session bound to some default tenant. -/
theorem C6_missing_context_error :
    ∀ (flag : Bool) (inserts : List ProcessInstanceRow) (conn : ConnState)
      (db : Table),
      (runNativeTxn flag DatabaseRole.runtime none inserts conn db).outcome =
          some TenancyError.MissingContextError ∧
        (runNativeTxn flag DatabaseRole.runtime none inserts conn db).db =
          db ∧
        (runNativeTxn flag DatabaseRole.runtime none inserts conn
              db).executedDomain =
          [] := by
  intro flag inserts conn db
  refine ⟨?_, ?_, ?_⟩ <;> simp [runNativeTxn, decide_none_runtime]

/-- C7. The tenant binding is transaction-scoped: with a present context the
only bind statement is the transaction-scoped `SET LOCAL`, which never
touches session-level connection state, and whatever happens inside the
transaction (commit or rollback, any role, any context), the connection
handed back to the pool carries no transaction-local tenant binding. -/
theorem C7_binding_transaction_scoped :
    ∀ (flag : Bool) (role : DatabaseRole) (ctx : Option String)
      (inserts : List ProcessInstanceRow) (conn : ConnState) (db : Table),
      (runNativeTxn flag role ctx inserts conn db).conn.txnTenant = none ∧
        ∀ t, ctx = some t →
          (runNativeTxn flag role ctx inserts conn db).issuedBindStmts =
              [BindStmt.setLocalTenant t] ∧
            (runNativeTxn flag role ctx inserts conn db).conn.sessionTenant =
              conn.sessionTenant := by
  intro flag role ctx inserts conn db
  constructor
  · rw [runNativeTxn_conn]
    rfl
  · intro t ht
    subst ht
    refine ⟨runNativeTxn_issued .., ?_⟩
    rw [runNativeTxn_conn]
    rfl

/-- Witness for C7: a pooled connection that still carries `tenant-b` at
session level is borrowed for a `tenant-a` transaction; afterwards it holds
no transaction-local binding and its session level is exactly what it was. -/
theorem C7_witness :
    (runNativeTxn false DatabaseRole.runtime (some "tenant-a") []
          { sessionTenant := some "tenant-b", txnTenant := none }
          []).conn.txnTenant =
        none ∧
      (runNativeTxn false DatabaseRole.runtime (some "tenant-a") []
            { sessionTenant := some "tenant-b", txnTenant := none }
            []).conn.sessionTenant =
        some "tenant-b" :=
  ⟨(C7_binding_transaction_scoped false DatabaseRole.runtime (some "tenant-a")
        [] { sessionTenant := some "tenant-b", txnTenant := none } []).1,
    ((C7_binding_transaction_scoped false DatabaseRole.runtime
          (some "tenant-a") []
          { sessionTenant := some "tenant-b", txnTenant := none } []).2
        "tenant-a" rfl).2⟩

theorem filter_settingMatches_none (db : Table) :
    db.filter (fun r => settingMatches none r.m8f_tenant_id) = [] := by
  induction db with
  | nil => rfl
  | cons r rs ih => simp [List.filter, settingMatches, ih]

/-- C8. Strategy equivalence modulo the documented caveat: each of the four
VerificationHarness assertions yields the same pass/fail outcome under the
native and the fallback strategy when the query goes through the shared
accessor; the one exception is a query that bypasses the accessor, which the
native strategy still filters (no rows without context) while the fallback
strategy cannot prevent (it returns the whole table). -/
theorem C8_strategy_equivalence :
    (∀ db : Table,
        assert_no_context_read_returns_empty Strategy.native true db =
          assert_no_context_read_returns_empty Strategy.fallback true db) ∧
      (∀ row : ProcessInstanceRow,
        assert_no_context_write_rejected Strategy.native true row =
          assert_no_context_write_rejected Strategy.fallback true row) ∧
      (∀ (a b : String) (db : Table),
        assert_tenant_sees_only_own_rows Strategy.native true a b db =
          assert_tenant_sees_only_own_rows Strategy.fallback true a b db) ∧
      (∀ db : Table,
        assert_bypass_role_sees_all Strategy.native true db =
          assert_bypass_role_sees_all Strategy.fallback true db) ∧
      (∀ db : Table,
        readRows Strategy.native false DatabaseRole.runtime none db = [] ∧
          readRows Strategy.fallback false DatabaseRole.runtime none db =
            db) := by
  refine ⟨?_, ?_, ?_, ?_, ?_⟩
  · intro db
    simp [assert_no_context_read_returns_empty, readRows,
      rlsRead_runtime_unset, bypassRLS, filter_settingMatches_none]
  · intro row
    simp [assert_no_context_write_rejected, writeAccepted, bypassRLS,
      settingMatches, contextPresent]
  · intro a b db
    simp [assert_tenant_sees_only_own_rows, readRows, rlsRead, bypassRLS]
  · intro db
    simp [assert_bypass_role_sees_all, readRows, rlsRead, bypassRLS]
  · intro db
    exact ⟨rlsRead_runtime_unset db, rfl⟩

/-- C9. `TenantSelectPage.handleSubmit` (tenant-verifying variant): an empty
trimmed name yields the required-name error with no localStorage write and no
navigation (independent of the backend, which is never called); a non-empty
name stores the tenant identifier under `m8flow_tenant` and navigates to
`/login` exactly when the `/tenants/check` response has `exists` true
(storing the response's `tenant_id` when present, else the trimmed input);
`exists` false and request failure store nothing and navigate nowhere; any
localStorage write implies a successful `exists`-true response. -/
theorem C9_tenant_select_submit :
    ∀ (tenantName : String) (backend : BackendCallResult),
      (jsTrim tenantName = "" →
        handleSubmit tenantName backend =
            { errorMsg := some "Tenant name is required", stored := none,
              navigatedTo := none } ∧
          ∀ backend2, handleSubmit tenantName backend =
            handleSubmit tenantName backend2) ∧
      (jsTrim tenantName ≠ "" →
        (∀ data, backend = BackendCallResult.success data →
          (data.«exists» = true →
            handleSubmit tenantName backend =
              { errorMsg := none,
                stored := some (M8FLOW_TENANT_STORAGE_KEY,
                  data.tenant_id.getD (jsTrim tenantName)),
                navigatedTo := some "/login" }) ∧
          (data.«exists» = false →
            handleSubmit tenantName backend =
              { errorMsg := some "Tenant not found", stored := none,
                navigatedTo := none })) ∧
        (∀ msg, backend = BackendCallResult.failure msg →
          handleSubmit tenantName backend =
            { errorMsg := some (msg.getD "Unable to verify tenant"),
              stored := none, navigatedTo := none })) ∧
      ((handleSubmit tenantName backend).stored ≠ none →
        ∃ data, backend = BackendCallResult.success data ∧
          data.«exists» = true ∧ jsTrim tenantName ≠ "") := by
  intro tenantName backend
  refine ⟨?_, ?_, ?_⟩
  · intro he
    refine ⟨?_, ?_⟩
    · simp [handleSubmit, he]
    · intro backend2
      simp [handleSubmit, he]
  · intro hne
    refine ⟨?_, ?_⟩
    · rintro data rfl
      constructor <;> intro hx <;> simp [handleSubmit, hne, hx]
    · rintro msg rfl
      simp [handleSubmit, hne]
  · intro hs
    by_cases he : jsTrim tenantName = ""
    · exfalso
      apply hs
      simp [handleSubmit, he]
    · match backend with
      | BackendCallResult.failure msg =>
        exfalso
        apply hs
        simp [handleSubmit, he]
      | BackendCallResult.success data =>
        refine ⟨data, rfl, ?_, he⟩
        by_cases hx : data.«exists» = true
        · exact hx
        · exfalso
          apply hs
          simp [handleSubmit, he, hx]

/-- Witness for C9: submitting `" tenant-a "` while the backend reports the
tenant exists with id `t-123` stores `(m8flow_tenant, t-123)` and navigates
to `/login`. -/
theorem C9_witness :
    handleSubmit " tenant-a "
        (BackendCallResult.success
          { «exists» := true, tenant_id := some "t-123" }) =
      { errorMsg := none,
        stored := some (M8FLOW_TENANT_STORAGE_KEY, "t-123"),
        navigatedTo := some "/login" } :=
  (((C9_tenant_select_submit " tenant-a "
          (BackendCallResult.success
            { «exists» := true, tenant_id := some "t-123" })).2.1
        (by decide)).1
      { «exists» := true, tenant_id := some "t-123" } rfl).1 rfl

/-- C10. `RealmInfoMapper.setClaim` always sets the claims
`m8flow_tenant_name` and `m8flow_tenant_id` to exactly the name and id of the
realm in the Keycloak session context (the realm issuing the token), and its
output is independent of the mapper configuration, the user session, and the
client session context — so the tenant id the backend receives from the
token equals the issuing realm's id. -/
theorem C10_realm_info_mapper :
    ∀ (token : IDToken) (mappingModel mm2 : ProtocolMapperModel)
      (userSession us2 : UserSessionModel)
      (keycloakSession : KeycloakSession)
      (clientSessionCtx cc2 : ClientSessionContext),
      lookupClaim
          (setClaim token mappingModel userSession keycloakSession
            clientSessionCtx)
          "m8flow_tenant_name" =
        some keycloakSession.context.realm.name ∧
      lookupClaim
          (setClaim token mappingModel userSession keycloakSession
            clientSessionCtx)
          "m8flow_tenant_id" =
        some keycloakSession.context.realm.id ∧
      setClaim token mappingModel userSession keycloakSession
          clientSessionCtx =
        setClaim token mm2 us2 keycloakSession cc2 := by
  intro token mm mm2 us us2 ks cc cc2
  refine ⟨?_, ?_, rfl⟩
  · simp [lookupClaim, setClaim, putClaim, List.lookup]
  · simp [lookupClaim, setClaim, putClaim, List.lookup]

end M8flow
